import Mathlib

/-!
Verification of the fluxa health-monitoring engine.

Shallow embedding of the core of the fluxa repository:
model.rs (data model), notification.rs (dispatcher), monitoring.rs
(service monitor, supervisor), service.rs (health-check cycle) and
state.rs (shared state store).  Network I/O is modelled by an
environment map from attempt index to the outcome the transport would
deliver for that attempt; wall-clock readings are explicit parameters;
per-attempt sleeps are recorded in an explicit trace.
-/

namespace Fluxa

/-- Health status of a monitored service, from model.rs.
Binary enum: Healthy or Unhealthy. -/
inductive HealthStatus
  | Healthy
  | Unhealthy
  deriving DecidableEq, Repr

/-- Statistics snapshot for one target, from model.rs (MonitoringStats). -/
structure MonitoringStats where
  status : HealthStatus
  last_response_time_ms : Option Nat
  last_check_timestamp : Nat
  next_check_timestamp : Nat
  last_error : Option String
  current_retry_count : Nat
  deriving DecidableEq, Repr

/-- One monitored endpoint, from model.rs (MonitoredService).
Durations are modelled as plain numbers of time units. -/
structure MonitoredService where
  url : String
  interval_seconds : Nat
  health_status : HealthStatus
  max_retries : Nat
  retry_interval : Nat
  deriving DecidableEq, Repr

/-- Error for an invalid monitored-service definition, from model.rs. -/
inductive MonitoredServiceError
  | InvalidUrl (url : String)
  deriving DecidableEq, Repr

/-- Notification errors, from error.rs (NotificationError). -/
inductive NotificationError
  | HttpRequest (message : String)
  | SendFailed (message : String)
  | Io (message : String)
  deriving DecidableEq, Repr

/-- Service monitoring errors, from error.rs (ServiceError). -/
inductive ServiceError
  | MonitoredService (e : MonitoredServiceError)
  | HttpRequest (message : String)
  | Notification (e : NotificationError)
  deriving DecidableEq, Repr

/-- Configuration errors, from settings.rs (ServiceConfigurationError). -/
inductive ServiceConfigurationError
  | ErrorInConfiguration (message : String)
  deriving DecidableEq, Repr

/-- Top-level application errors, from error.rs (FluxaError).
The JoinError payload of TaskJoin is modelled as its message text. -/
inductive FluxaError
  | Configuration (e : ServiceConfigurationError)
  | Service (e : ServiceError)
  | Http (message : String)
  | TaskJoin (message : String)
  | AddrParse (message : String)
  deriving DecidableEq, Repr

/-- One notification provider registered with the dispatcher, from
notification.rs (trait NotificationProvider): a name and a send
capability.  The outcome of sending a given message is modelled as
none for Ok and some e for Err with error text e. -/
structure Provider where
  name : String
  send : String → Option String

/-- NotificationManager.send_notification from notification.rs.
Returns the delivery result together with the trace of provider names
through which a delivery was attempted, in order (the Rust loop visits
every provider unconditionally).  An empty provider list short-circuits
to Ok with no attempt; otherwise errors are collected per failing
provider as "name: error" and the call fails only when every provider
failed, with the aggregate message. -/
def send_notification (providers : List Provider) (message : String) :
    Except NotificationError Unit × List String :=
  if providers.isEmpty then (Except.ok (), [])
  else
    let errors := providers.filterMap fun p =>
      (p.send message).map fun e => p.name ++ ": " ++ e
    if errors.length = providers.length then
      (Except.error (NotificationError.SendFailed
        ("All providers failed: " ++ String.intercalate ", " errors)),
       providers.map Provider.name)
    else
      (Except.ok (), providers.map Provider.name)

/-- The human-readable transition message built in
ServiceMonitor.handle_status_change (monitoring.rs). -/
def statusMessage (url : String) (current : HealthStatus) : String :=
  if current = HealthStatus.Healthy then url ++ " is now healthy!"
  else url ++ " is unhealthy!"

/-- ServiceMonitor.handle_status_change from monitoring.rs: when the new
verdict differs from the remembered previous status, build the message,
dispatch it (a dispatcher failure is only logged), and remember the new
status.  Returns the updated service and the message dispatched this
cycle, if any. -/
def handle_status_change (service : MonitoredService)
    (current_health : HealthStatus) : MonitoredService × Option String :=
  if current_health ≠ service.health_status then
    ({ service with health_status := current_health },
     some (statusMessage service.url current_health))
  else
    (service, none)

/-- Iterate handle_status_change over a sequence of cycle verdicts,
collecting the dispatched messages in order. -/
def runStatusChanges (service : MonitoredService) :
    List HealthStatus → MonitoredService × List String
  | [] => (service, [])
  | v :: vs =>
    let step := handle_status_change service v
    let rest := runStatusChanges step.1 vs
    (rest.1, step.2.toList ++ rest.2)

/-- Outcome the transport delivers for one request attempt: either an
HTTP response (status code, canonical reason phrase if any, elapsed
time) or a transport-level error with its cause text.  This models the
value of client.get(url).send().await for one attempt. -/
inductive AttemptOutcome
  | response (status : Nat) (canonical_reason : Option String) (elapsed_ms : Nat)
  | transportError (cause : String)
  deriving DecidableEq, Repr

/-- reqwest StatusCode.is_success: 2xx status codes. -/
def statusIsSuccess (status : Nat) : Bool :=
  200 ≤ status && status < 300

/-- Whether an attempt outcome is a response with a success status. -/
def isSuccessOutcome : AttemptOutcome → Bool
  | AttemptOutcome.response status _ _ => statusIsSuccess status
  | AttemptOutcome.transportError _ => false

/-- Whether an attempt outcome is a transport-level error. -/
def isTransportErr : AttemptOutcome → Bool
  | AttemptOutcome.response _ _ _ => false
  | AttemptOutcome.transportError _ => true

/-- Whether an attempt outcome counts as a failed attempt (non-success
response or transport error). -/
def isFailedAttempt (o : AttemptOutcome) : Bool :=
  !isSuccessOutcome o

/-- Result of the retry loop of ServiceMonitor.perform_health_check in
monitoring.rs: the verdict, the number of attempts made, and the trace
of sleeps performed between attempts (each entry one sleep duration). -/
structure HealthCheckResult where
  current_health : HealthStatus
  attempts_made : Nat
  sleeps : List Nat
  deriving DecidableEq, Repr

/-- The body of the for-loop of ServiceMonitor.perform_health_check
(monitoring.rs), over the list of outcomes remaining attempts would
observe; the list handed to the loop has max_retries + 1 entries, so a
nonempty tail means attempt < max_retries.  A successful response
breaks with Healthy; a non-success response just logs and continues; a
transport error sleeps retry_interval and continues when attempts
remain, otherwise breaks with Unhealthy; running off the end leaves the
initial Unhealthy. -/
def perform_health_check_loop (retry_interval : Nat) :
    List AttemptOutcome → HealthCheckResult
  | [] => ⟨HealthStatus.Unhealthy, 0, []⟩
  | o :: rest =>
    match o with
    | AttemptOutcome.response status _ _ =>
      if statusIsSuccess status then
        ⟨HealthStatus.Healthy, 1, []⟩
      else
        let r := perform_health_check_loop retry_interval rest
        ⟨r.current_health, r.attempts_made + 1, r.sleeps⟩
    | AttemptOutcome.transportError _ =>
      if rest.isEmpty then
        ⟨HealthStatus.Unhealthy, 1, []⟩
      else
        let r := perform_health_check_loop retry_interval rest
        ⟨r.current_health, r.attempts_made + 1, retry_interval :: r.sleeps⟩

/-- ServiceMonitor.perform_health_check retry loop (monitoring.rs,
lines 44-77): for attempt in 0..=max_retries, with the environment env
giving the outcome the transport would deliver for each attempt
index. -/
def perform_health_check (env : Nat → AttemptOutcome)
    (max_retries retry_interval : Nat) : HealthCheckResult :=
  perform_health_check_loop retry_interval
    ((List.range (max_retries + 1)).map env)

/-- Diagnostic string for an unsuccessful HTTP response, from
service.rs: "HTTP code: reason" with canonical reason defaulting to
Unknown. -/
def httpDiagnostic (status : Nat) (canonical_reason : Option String) : String :=
  "HTTP " ++ toString status ++ ": " ++ canonical_reason.getD "Unknown"

/-- Diagnostic string for a transport-level error, from service.rs:
"Request failed: cause". -/
def transportDiagnostic (cause : String) : String :=
  "Request failed: " ++ cause

/-- Result of the retry loop of send_request in service.rs: verdict,
recorded response time, recorded diagnostic, attempts made, and the
trace of sleeps between attempts. -/
structure SendRequestResult where
  current_health : HealthStatus
  response_time : Option Nat
  error_message : Option String
  attempts_made : Nat
  sleeps : List Nat
  deriving DecidableEq, Repr

/-- The retry loop of send_request (service.rs, lines 25-67), over the
list of outcomes the remaining attempts would observe, threading the
response_time and error_message accumulators exactly as the Rust code
does: every received response overwrites response_time with its elapsed
time (success or not); a successful response breaks with Healthy and
clears error_message; a non-success response records the HTTP
diagnostic and continues without sleeping; a transport error records
the Request-failed diagnostic, then sleeps retry_interval and continues
when attempts remain, otherwise breaks with Unhealthy. -/
def send_request_loop (retry_interval : Nat) :
    List AttemptOutcome → Option Nat → Option String → SendRequestResult
  | [], rt, em => ⟨HealthStatus.Unhealthy, rt, em, 0, []⟩
  | o :: rest, rt, em =>
    match o with
    | AttemptOutcome.response status reason elapsed =>
      if statusIsSuccess status then
        ⟨HealthStatus.Healthy, some elapsed, none, 1, []⟩
      else
        let r := send_request_loop retry_interval rest (some elapsed)
          (some (httpDiagnostic status reason))
        ⟨r.current_health, r.response_time, r.error_message,
          r.attempts_made + 1, r.sleeps⟩
    | AttemptOutcome.transportError cause =>
      if rest.isEmpty then
        ⟨HealthStatus.Unhealthy, rt, some (transportDiagnostic cause), 1, []⟩
      else
        let r := send_request_loop retry_interval rest rt
          (some (transportDiagnostic cause))
        ⟨r.current_health, r.response_time, r.error_message,
          r.attempts_made + 1, retry_interval :: r.sleeps⟩

/-- The retry loop of send_request (service.rs) for one cycle: attempts
0..=max_retries against the environment, with both accumulators
initially None. -/
def send_request_cycle (env : Nat → AttemptOutcome)
    (max_retries retry_interval : Nat) : SendRequestResult :=
  send_request_loop retry_interval ((List.range (max_retries + 1)).map env)
    none none

/-- Response time recorded after consuming a list of outcomes, starting
from accumulator rt: every received response overwrites it with its
elapsed time, transport errors leave it unchanged (service.rs lines
26-31 and 47). -/
def lastResponseTime (rt : Option Nat) (os : List AttemptOutcome) : Option Nat :=
  os.foldl
    (fun acc o =>
      match o with
      | AttemptOutcome.response _ _ elapsed => some elapsed
      | AttemptOutcome.transportError _ => acc)
    rt

/-- Error message recorded after consuming a list of outcomes, starting
from accumulator em: a successful response clears it, a non-success
response stores the HTTP diagnostic, a transport error stores the
Request-failed diagnostic (service.rs lines 33-48). -/
def lastErrorMessage (em : Option String) (os : List AttemptOutcome) :
    Option String :=
  os.foldl
    (fun acc o =>
      match o with
      | AttemptOutcome.response status reason _ =>
        if statusIsSuccess status then none
        else some (httpDiagnostic status reason)
      | AttemptOutcome.transportError cause =>
        some (transportDiagnostic cause))
    em

/-- The shared monitoring state, from state.rs (MonitoringState): a map
from target URL to its latest statistics snapshot, modelled as a
function returning None for absent keys (HashMap point semantics). -/
structure MonitoringState where
  services : String → Option MonitoringStats

/-- MonitoringState::new from state.rs: the empty map. -/
def MonitoringState.new : MonitoringState :=
  ⟨fun _ => none⟩

/-- MonitoringState.update_service_stats from state.rs: build a fresh
MonitoringStats with last_check_timestamp = now (the SystemTime reading
taken inside the function, passed here as an explicit parameter) and
next_check_timestamp = now + next_check_in_seconds, and insert it under
url, replacing any previous entry wholesale. -/
def MonitoringState.update_service_stats (s : MonitoringState) (url : String)
    (status : HealthStatus) (response_time_ms : Option Nat)
    (error : Option String) (retry_count : Nat)
    (next_check_in_seconds : Nat) (now : Nat) : MonitoringState :=
  ⟨fun k =>
    if k = url then
      some ⟨status, response_time_ms, now, now + next_check_in_seconds,
        error, retry_count⟩
    else s.services k⟩

/-- MonitoringState.get_service from state.rs: point lookup by url. -/
def MonitoringState.get_service (s : MonitoringState) (url : String) :
    Option MonitoringStats :=
  s.services url

/-- Argument record for one update_service_stats call, used to describe
sequences of store writes. -/
structure UpdateArgs where
  url : String
  status : HealthStatus
  response_time_ms : Option Nat
  error : Option String
  retry_count : Nat
  next_check_in_seconds : Nat
  now : Nat

/-- Apply a sequence of update_service_stats calls in order. -/
def applyUpdates (s : MonitoringState) : List UpdateArgs → MonitoringState
  | [] => s
  | u :: us =>
    applyUpdates
      (s.update_service_stats u.url u.status u.response_time_ms u.error
        u.retry_count u.next_check_in_seconds u.now) us

/-- One full monitor cycle of send_request (service.rs): run the retry
loop, unconditionally record the cycle snapshot, then notify on a
transition from the previous status.

Modelled from the spec: the MonitoredService.update_after_check method
called by send_request (service.rs line 70) is not part of src/; per
the spec Recording step, it unconditionally pushes a new Monitoring
Snapshot for this target into the Shared State Store (with the retry
count consumed by the cycle, here attempts_made - 1) and refreshes the
remembered health status.  The function returns the new store, the
updated service, the snapshot written this cycle, and the dispatched
transition message, if any. -/
def monitor_cycle (state : MonitoringState) (service : MonitoredService)
    (env : Nat → AttemptOutcome) (now : Nat) :
    MonitoringState × MonitoredService × MonitoringStats × Option String :=
  let r := send_request_cycle env service.max_retries service.retry_interval
  let written : MonitoringStats :=
    ⟨r.current_health, r.response_time, now, now + service.interval_seconds,
      r.error_message, r.attempts_made - 1⟩
  let state1 := state.update_service_stats service.url r.current_health
    r.response_time r.error_message (r.attempts_made - 1)
    service.interval_seconds now
  let message :=
    if r.current_health ≠ service.health_status then
      some (statusMessage service.url r.current_health)
    else none
  let service1 := { service with health_status := r.current_health }
  (state1, service1, written, message)

/-- Run a sequence of monitor cycles, each described by its attempt
environment and its wall-clock reading, collecting the trace of store
writes and the trace of dispatched messages. -/
def run_monitor_cycles (state : MonitoringState) (service : MonitoredService) :
    List ((Nat → AttemptOutcome) × Nat) →
      MonitoringState × MonitoredService × List MonitoringStats × List String
  | [] => (state, service, [], [])
  | (env, now) :: rest =>
    let step := monitor_cycle state service env now
    let after := run_monitor_cycles step.1 step.2.1 rest
    (after.1, after.2.1, step.2.2.1 :: after.2.2.1,
      step.2.2.2.toList ++ after.2.2.2)

/-- Per-service configuration, from settings.rs (ServiceConfig). -/
structure ServiceConfig where
  url : String
  interval_seconds : Nat
  max_retries : Nat
  retry_interval : Nat
  deriving DecidableEq, Repr

/-- Modelled from the spec: is_valid_url in model.rs delegates to the
external reqwest Url::parse, whose implementation is not part of src/;
per the spec a URL must parse as a valid absolute URI, so the model
requires a nonempty alphabetic scheme followed by a colon and a
remainder.  The repository test suite pins that the empty string is
invalid. -/
def is_valid_url (input : String) : Bool :=
  match input.toList.splitOn ':' with
  | scheme :: _ :: _ => !scheme.isEmpty && scheme.all Char.isAlpha
  | _ => false

/-- MonitoredService::try_from a ServiceConfig, from model.rs: a
construction-time error when the URL is invalid, otherwise a service
with the optimistic initial Healthy status. -/
def MonitoredService.try_from (config : ServiceConfig) :
    Except MonitoredServiceError MonitoredService :=
  if is_valid_url config.url then
    Except.ok
      ⟨config.url, config.interval_seconds, HealthStatus.Healthy,
        config.max_retries, config.retry_interval⟩
  else
    Except.error (MonitoredServiceError.InvalidUrl config.url)

/-- MonitoringService.create_services_from_config from monitoring.rs:
for each config, a failing try_from is logged and skipped; successful
ones become monitors, in order.  (The per-monitor http client and
notification manager references are not part of the state modelled
here.) -/
def create_services_from_config (service_configs : List ServiceConfig) :
    List MonitoredService :=
  service_configs.filterMap fun config =>
    (MonitoredService.try_from config).toOption

/-- MonitoringService.start_all_monitoring from monitoring.rs: a
configuration error when no monitors exist, otherwise spawn one task
per monitor; the returned list is the trace of spawned task URLs, in
order. -/
def start_all_monitoring (service_monitors : List MonitoredService) :
    Except FluxaError (List String) :=
  if service_monitors.isEmpty then
    Except.error (FluxaError.Configuration
      (ServiceConfigurationError.ErrorInConfiguration
        "No services configured for monitoring"))
  else
    Except.ok (service_monitors.map MonitoredService.url)

/-- MonitoringService.wait_for_any_task_completion from monitoring.rs:
with no handles, a configuration error; otherwise pop the last spawned
handle and await it alone.  A task is modelled by its eventual outcome:
none when it never terminates, some r when it terminates with r (the
JoinError path of a panicking task is not modelled).  The overall value
none means the supervisor itself never returns. -/
def wait_for_any_task_completion
    (task_handles : List (Option (Except ServiceError Unit))) :
    Option (Except FluxaError Unit) :=
  match task_handles.getLast? with
  | none =>
    some (Except.error (FluxaError.Configuration
      (ServiceConfigurationError.ErrorInConfiguration
        "No running monitoring tasks.")))
  | some none => none
  | some (some (Except.ok _)) => some (Except.ok ())
  | some (some (Except.error e)) =>
    some (Except.error (FluxaError.Service e))

/-- Concrete environment: every attempt receives an HTTP 500 response
after 37ms. -/
def envAlways500 : Nat → AttemptOutcome :=
  fun _ => AttemptOutcome.response 500 (some "Internal Server Error") 37

/-- Concrete environment: attempt 0 receives an HTTP 500 response,
every later attempt an HTTP 200 response. -/
def envFailThenOk : Nat → AttemptOutcome :=
  fun i =>
    if i = 0 then AttemptOutcome.response 500 (some "Internal Server Error") 3
    else AttemptOutcome.response 200 (some "OK") 2

/-- Concrete environment: every attempt fails at transport level. -/
def envAlwaysTransportErr : Nat → AttemptOutcome :=
  fun _ => AttemptOutcome.transportError "error sending request"

/-- Concrete service configuration with an invalid (empty) URL, as in
the repository test test_configuration_error_when_url_is_invalid. -/
def badConfig : ServiceConfig :=
  ⟨"", 3, 3, 333⟩

/-- Concrete service configuration with a valid URL, as in the
repository test test_build_from_config. -/
def goodConfig : ServiceConfig :=
  ⟨"http://localhost:3000", 300, 3, 3⟩

end Fluxa

namespace Fluxa

/- ### Helper lemmas -/

theorem length_filterMap_eq_iff {α β : Type} (f : α → Option β) (l : List α) :
    (l.filterMap f).length = l.length ↔ ∀ a ∈ l, (f a).isSome := by
  induction l with
  | nil => simp
  | cons a l ih =>
    cases hfa : f a with
    | none =>
      simp only [List.filterMap_cons, hfa, List.length_cons, List.mem_cons]
      constructor
      · intro h
        have hle := List.length_filterMap_le f l
        omega
      · intro h
        have := h a (Or.inl rfl)
        rw [hfa] at this
        simp at this
    | some b =>
      simp only [List.filterMap_cons, hfa, List.length_cons, List.mem_cons]
      constructor
      · intro h a' ha'
        rcases ha' with rfl | ha'
        · rw [hfa]
          rfl
        · exact (ih.mp (by omega)) a' ha'
      · intro h
        have := ih.mpr (fun a ha => h a (Or.inr ha))
        omega

theorem filterMap_eq_map_of_some {α β : Type} (f : α → Option β) (g : α → β)
    (l : List α) (h : ∀ a ∈ l, f a = some (g a)) : l.filterMap f = l.map g := by
  induction l with
  | nil => rfl
  | cons a l ih =>
    rw [List.filterMap_cons, h a (List.mem_cons_self a l), List.map_cons,
      ih (fun x hx => h x (List.mem_cons_of_mem _ hx))]

theorem runStatusChanges_same (service : Fluxa.MonitoredService) (n : Nat) :
    runStatusChanges service (List.replicate n service.health_status) =
      (service, []) := by
  induction n with
  | zero => simp [runStatusChanges]
  | succ m ih =>
    simp only [List.replicate_succ, runStatusChanges, handle_status_change]
    simp [ih]

/- ### C1 -/

/-- C1: a notification is dispatched in a cycle iff the verdict differs
from the remembered previous health status, with message
"url is now healthy!" on a transition to Healthy and
"url is unhealthy!" on a transition to Unhealthy; and a run of n
consecutive cycles with identical verdicts dispatches exactly one
notification when the first of them is a transition and none otherwise
(in particular, at most one). -/
theorem notification_iff_transition (service : MonitoredService)
    (current v : HealthStatus) (n : Nat) :
    ((handle_status_change service current).2 =
      if current = service.health_status then none
      else some (if current = HealthStatus.Healthy
        then service.url ++ " is now healthy!"
        else service.url ++ " is unhealthy!"))
    ∧ ((runStatusChanges service (List.replicate n v)).2 =
      if n = 0 ∨ v = service.health_status then []
      else [if v = HealthStatus.Healthy
        then service.url ++ " is now healthy!"
        else service.url ++ " is unhealthy!"]) := by
  constructor
  · by_cases h : current = service.health_status
    · simp [handle_status_change, h]
    · simp [handle_status_change, h, statusMessage]
  · cases n with
    | zero => simp [runStatusChanges]
    | succ m =>
      by_cases hv : v = service.health_status
      · subst hv
        rw [runStatusChanges_same]
        simp
      · simp only [List.replicate_succ, runStatusChanges, handle_status_change]
        rw [if_pos hv]
        have hstep :
            runStatusChanges { service with health_status := v }
              (List.replicate m v) =
            ({ service with health_status := v }, []) :=
          runStatusChanges_same { service with health_status := v } m
        simp [hstep, statusMessage, hv]

/- ### C3 -/

/-- C3: for a non-empty provider list, send_notification attempts
delivery through every provider (the attempt trace lists them all, in
order), returns Ok iff at least one provider succeeded, and returns the
aggregate failure, naming every failing provider with its error text,
exactly when all providers failed. -/
theorem send_notification_fanout (providers : List Provider)
    (message : String) (hne : providers ≠ []) :
    ((send_notification providers message).2 =
        providers.map Provider.name)
    ∧ ((send_notification providers message).1 = Except.ok () ↔
        ∃ p ∈ providers, p.send message = none)
    ∧ ((∀ p ∈ providers, p.send message ≠ none) →
        (send_notification providers message).1 =
          Except.error (NotificationError.SendFailed
            ("All providers failed: " ++ String.intercalate ", "
              (providers.map fun p =>
                p.name ++ ": " ++ ((p.send message).getD ""))))) := by
  have hempty : providers.isEmpty = false := by
    cases providers with
    | nil => exact absurd rfl hne
    | cons p ps => rfl
  have hkey : ((providers.filterMap fun p =>
          (p.send message).map fun e => p.name ++ ": " ++ e).length =
        providers.length) ↔ ∀ p ∈ providers, (p.send message).isSome := by
    have h := length_filterMap_eq_iff
      (fun p : Provider => (p.send message).map fun e => p.name ++ ": " ++ e)
      providers
    refine h.trans ?_
    constructor
    · intro ha p hp
      have := ha p hp
      simpa using this
    · intro ha p hp
      simpa using ha p hp
  refine ⟨?_, ?_, ?_⟩
  · simp only [send_notification, hempty, Bool.false_eq_true, if_false]
    by_cases hall : (providers.filterMap fun p =>
        (p.send message).map fun e => p.name ++ ": " ++ e).length =
        providers.length
    · simp [hall]
    · simp [hall]
  · simp only [send_notification, hempty, Bool.false_eq_true, if_false]
    by_cases hall : (providers.filterMap fun p =>
        (p.send message).map fun e => p.name ++ ": " ++ e).length =
        providers.length
    · simp only [hall, if_pos rfl]
      constructor
      · intro h
        exact absurd h (by simp)
      · intro ⟨p, hp, hnone⟩
        have := hkey.mp hall p hp
        simp [hnone] at this
    · simp only [hall, if_neg hall]
      constructor
      · intro _
        by_contra hno
        push_neg at hno
        apply hall
        apply hkey.mpr
        intro p hp
        have := hno p hp
        cases hsend : p.send message with
        | none => exact absurd hsend this
        | some e => simp
      · intro _
        rfl
  · intro hfail
    have hall : (providers.filterMap fun p =>
        (p.send message).map fun e => p.name ++ ": " ++ e).length =
        providers.length := by
      apply hkey.mpr
      intro p hp
      cases hsend : p.send message with
      | none => exact absurd hsend (hfail p hp)
      | some e => simp
    have hmap : (providers.filterMap fun p =>
          (p.send message).map fun e => p.name ++ ": " ++ e) =
        providers.map fun p => p.name ++ ": " ++ ((p.send message).getD "") := by
      apply filterMap_eq_map_of_some
      intro p hp
      cases hsend : p.send message with
      | none => exact absurd hsend (hfail p hp)
      | some e => rfl
    simp only [send_notification, hempty, Bool.false_eq_true, if_false]
    rw [hmap]
    simp [List.length_map]

/- ### C2 -/

theorem phc_loop_cons_response (ri status : Nat) (reason : Option String)
    (elapsed : Nat) (rest : List AttemptOutcome) :
    perform_health_check_loop ri
        (AttemptOutcome.response status reason elapsed :: rest) =
      if statusIsSuccess status then ⟨HealthStatus.Healthy, 1, []⟩
      else
        ⟨(perform_health_check_loop ri rest).current_health,
          (perform_health_check_loop ri rest).attempts_made + 1,
          (perform_health_check_loop ri rest).sleeps⟩ := rfl

theorem phc_loop_cons_transport (ri : Nat) (cause : String)
    (rest : List AttemptOutcome) :
    perform_health_check_loop ri
        (AttemptOutcome.transportError cause :: rest) =
      if rest.isEmpty then ⟨HealthStatus.Unhealthy, 1, []⟩
      else
        ⟨(perform_health_check_loop ri rest).current_health,
          (perform_health_check_loop ri rest).attempts_made + 1,
          ri :: (perform_health_check_loop ri rest).sleeps⟩ := rfl

theorem phc_loop_attempts_le (ri : Nat) (os : List AttemptOutcome) :
    (perform_health_check_loop ri os).attempts_made ≤ os.length := by
  induction os with
  | nil => simp [perform_health_check_loop]
  | cons o rest ih =>
    cases o with
    | response status reason elapsed =>
      rw [phc_loop_cons_response]
      by_cases hs : statusIsSuccess status
      · simp [hs]
      · simp [hs]
        omega
    | transportError cause =>
      rw [phc_loop_cons_transport]
      cases rest with
      | nil => simp
      | cons o2 rest2 =>
        simp only [List.length_cons] at ih ⊢
        simp
        omega

theorem phc_loop_all_fail (ri : Nat) (os : List AttemptOutcome)
    (h : ∀ o ∈ os, isSuccessOutcome o = false) :
    (perform_health_check_loop ri os).attempts_made = os.length
    ∧ (perform_health_check_loop ri os).current_health =
        HealthStatus.Unhealthy := by
  induction os with
  | nil => simp [perform_health_check_loop]
  | cons o rest ih =>
    have hrest : ∀ o ∈ rest, isSuccessOutcome o = false :=
      fun x hx => h x (List.mem_cons_of_mem _ hx)
    have hrec := ih hrest
    cases o with
    | response status reason elapsed =>
      have hs : statusIsSuccess status = false := h _ (List.mem_cons_self _ _)
      rw [phc_loop_cons_response]
      simp only [hs, Bool.false_eq_true, if_false, List.length_cons]
      exact ⟨by omega, hrec.2⟩
    | transportError cause =>
      rw [phc_loop_cons_transport]
      cases rest with
      | nil => simp
      | cons o2 rest2 =>
        simp only [List.isEmpty_cons, Bool.false_eq_true, if_false,
          List.length_cons] at hrec ⊢
        exact ⟨by omega, hrec.2⟩

theorem phc_loop_first_success (ri : Nat) (os₁ : List AttemptOutcome)
    (o : AttemptOutcome) (os₂ : List AttemptOutcome)
    (h₁ : ∀ x ∈ os₁, isSuccessOutcome x = false)
    (ho : isSuccessOutcome o = true) :
    (perform_health_check_loop ri (os₁ ++ o :: os₂)).attempts_made =
        os₁.length + 1
    ∧ (perform_health_check_loop ri (os₁ ++ o :: os₂)).current_health =
        HealthStatus.Healthy := by
  induction os₁ with
  | nil =>
    cases o with
    | response status reason elapsed =>
      have hs : statusIsSuccess status = true := ho
      simp only [List.nil_append, phc_loop_cons_response, hs, if_true]
      simp
    | transportError cause => simp [isSuccessOutcome] at ho
  | cons x xs ih =>
    have hxs : ∀ y ∈ xs, isSuccessOutcome y = false :=
      fun y hy => h₁ y (List.mem_cons_of_mem _ hy)
    have hrec := ih hxs
    cases x with
    | response status reason elapsed =>
      have hs : statusIsSuccess status = false := h₁ _ (List.mem_cons_self _ _)
      rw [List.cons_append, phc_loop_cons_response]
      simp only [hs, Bool.false_eq_true, if_false, List.length_cons]
      exact ⟨by omega, hrec.2⟩
    | transportError cause =>
      have hne : (xs ++ o :: os₂).isEmpty = false := by
        cases xs <;> rfl
      rw [List.cons_append, phc_loop_cons_transport]
      simp only [hne, Bool.false_eq_true, if_false, List.length_cons]
      exact ⟨by omega, hrec.2⟩

/-- C2: one health-check cycle of ServiceMonitor.perform_health_check
with max retry count r makes at most r + 1 attempts; it stops at the
first attempt whose response has a success status (making exactly i + 1
attempts and returning Healthy when attempt i is the first success);
and when every attempt fails it makes exactly r + 1 attempts and
returns Unhealthy. -/
theorem health_check_retry_protocol (env : Nat → AttemptOutcome)
    (r ri : Nat) :
    (perform_health_check env r ri).attempts_made ≤ r + 1
    ∧ (∀ i, i ≤ r → isSuccessOutcome (env i) = true →
        (∀ j, j < i → isSuccessOutcome (env j) = false) →
        (perform_health_check env r ri).attempts_made = i + 1
        ∧ (perform_health_check env r ri).current_health =
            HealthStatus.Healthy)
    ∧ ((∀ i, i ≤ r → isSuccessOutcome (env i) = false) →
        (perform_health_check env r ri).attempts_made = r + 1
        ∧ (perform_health_check env r ri).current_health =
            HealthStatus.Unhealthy) := by
  refine ⟨?_, ?_, ?_⟩
  · have h := phc_loop_attempts_le ri ((List.range (r + 1)).map env)
    simpa using h
  · intro i hi hsucc hbefore
    have hi1 : i < ((List.range (r + 1)).map env).length := by
      simp
      omega
    have hsplit : (List.range (r + 1)).map env =
        ((List.range (r + 1)).map env).take i ++
          env i :: ((List.range (r + 1)).map env).drop (i + 1) := by
      conv_lhs => rw [← List.take_append_drop i ((List.range (r + 1)).map env)]
      rw [List.drop_eq_getElem_cons hi1]
      simp
    have htake : ((List.range (r + 1)).map env).take i =
        (List.range i).map env := by
      rw [← List.map_take, List.take_range, Nat.min_eq_left (by omega)]
    have hfailpre : ∀ x ∈ ((List.range (r + 1)).map env).take i,
        isSuccessOutcome x = false := by
      rw [htake]
      intro x hx
      rcases List.mem_map.mp hx with ⟨j, hj, rfl⟩
      exact hbefore j (List.mem_range.mp hj)
    have h := phc_loop_first_success ri
      (((List.range (r + 1)).map env).take i) (env i)
      (((List.range (r + 1)).map env).drop (i + 1)) hfailpre hsucc
    rw [← hsplit] at h
    have hlen : (((List.range (r + 1)).map env).take i).length = i := by
      rw [htake]
      simp
    unfold perform_health_check
    rw [hlen] at h
    exact h
  · intro hfail
    have h := phc_loop_all_fail ri ((List.range (r + 1)).map env) ?_
    · unfold perform_health_check
      simpa using h
    · intro o ho
      rcases List.mem_map.mp ho with ⟨j, hj, rfl⟩
      exact hfail j (by have := List.mem_range.mp hj; omega)

/- ### C10 -/

/-- C10: with zero registered providers, send_notification returns Ok
for every message and attempts no delivery at all. -/
theorem send_notification_empty (message : String) :
    (send_notification [] message).1 = Except.ok ()
    ∧ (send_notification [] message).2 = [] := by
  constructor <;> rfl

/- ### send_request loop lemmas (C5, C6) -/

theorem srl_cons_response (ri status : Nat) (reason : Option String)
    (elapsed : Nat) (rest : List AttemptOutcome) (rt : Option Nat)
    (em : Option String) :
    send_request_loop ri
        (AttemptOutcome.response status reason elapsed :: rest) rt em =
      if statusIsSuccess status then
        ⟨HealthStatus.Healthy, some elapsed, none, 1, []⟩
      else
        ⟨(send_request_loop ri rest (some elapsed)
            (some (httpDiagnostic status reason))).current_health,
          (send_request_loop ri rest (some elapsed)
            (some (httpDiagnostic status reason))).response_time,
          (send_request_loop ri rest (some elapsed)
            (some (httpDiagnostic status reason))).error_message,
          (send_request_loop ri rest (some elapsed)
            (some (httpDiagnostic status reason))).attempts_made + 1,
          (send_request_loop ri rest (some elapsed)
            (some (httpDiagnostic status reason))).sleeps⟩ := rfl

theorem srl_cons_transport (ri : Nat) (cause : String)
    (rest : List AttemptOutcome) (rt : Option Nat) (em : Option String) :
    send_request_loop ri
        (AttemptOutcome.transportError cause :: rest) rt em =
      if rest.isEmpty then
        ⟨HealthStatus.Unhealthy, rt, some (transportDiagnostic cause), 1, []⟩
      else
        ⟨(send_request_loop ri rest rt
            (some (transportDiagnostic cause))).current_health,
          (send_request_loop ri rest rt
            (some (transportDiagnostic cause))).response_time,
          (send_request_loop ri rest rt
            (some (transportDiagnostic cause))).error_message,
          (send_request_loop ri rest rt
            (some (transportDiagnostic cause))).attempts_made + 1,
          ri :: (send_request_loop ri rest rt
            (some (transportDiagnostic cause))).sleeps⟩ := rfl

theorem srl_attempts_le (ri : Nat) (os : List AttemptOutcome)
    (rt : Option Nat) (em : Option String) :
    (send_request_loop ri os rt em).attempts_made ≤ os.length := by
  induction os generalizing rt em with
  | nil => simp [send_request_loop]
  | cons o rest ih =>
    cases o with
    | response status reason elapsed =>
      rw [srl_cons_response]
      by_cases hs : statusIsSuccess status
      · simp [hs]
      · simp [hs]
        have := ih (some elapsed) (some (httpDiagnostic status reason))
        omega
    | transportError cause =>
      rw [srl_cons_transport]
      cases rest with
      | nil => simp
      | cons o2 rest2 =>
        simp only [List.isEmpty_cons, Bool.false_eq_true, if_false,
          List.length_cons]
        have := ih rt (some (transportDiagnostic cause))
        simp only [List.length_cons] at this
        simp
        omega

theorem srl_attempts_pos (ri : Nat) (os : List AttemptOutcome)
    (rt : Option Nat) (em : Option String) (h : os ≠ []) :
    1 ≤ (send_request_loop ri os rt em).attempts_made := by
  cases os with
  | nil => exact absurd rfl h
  | cons o rest =>
    cases o with
    | response status reason elapsed =>
      rw [srl_cons_response]
      by_cases hs : statusIsSuccess status <;> simp [hs]
    | transportError cause =>
      rw [srl_cons_transport]
      by_cases he : rest.isEmpty <;> simp [he]

theorem srl_records (ri : Nat) (os : List AttemptOutcome)
    (rt : Option Nat) (em : Option String) :
    (send_request_loop ri os rt em).response_time =
      lastResponseTime rt (os.take (send_request_loop ri os rt em).attempts_made)
    ∧ (send_request_loop ri os rt em).error_message =
      lastErrorMessage em (os.take (send_request_loop ri os rt em).attempts_made)
    ∧ ((send_request_loop ri os rt em).current_health = HealthStatus.Healthy →
        (send_request_loop ri os rt em).error_message = none
        ∧ (send_request_loop ri os rt em).response_time.isSome) := by
  induction os generalizing rt em with
  | nil => simp [send_request_loop, lastResponseTime, lastErrorMessage]
  | cons o rest ih =>
    cases o with
    | response status reason elapsed =>
      by_cases hs : statusIsSuccess status
      · rw [srl_cons_response]
        simp [hs, lastResponseTime, lastErrorMessage]
      · rw [srl_cons_response]
        simp only [hs, Bool.false_eq_true, if_false]
        have hrec := ih (some elapsed) (some (httpDiagnostic status reason))
        refine ⟨?_, ?_, ?_⟩
        · simpa [lastResponseTime, hs] using hrec.1
        · simpa [lastErrorMessage, hs] using hrec.2.1
        · intro hh
          exact hrec.2.2 hh
    | transportError cause =>
      cases hrest : rest with
      | nil =>
        rw [srl_cons_transport]
        simp [lastResponseTime, lastErrorMessage]
      | cons o2 rest2 =>
        rw [← hrest, srl_cons_transport]
        have hne : rest.isEmpty = false := by
          rw [hrest]
          rfl
        simp only [hne, Bool.false_eq_true, if_false]
        have hrec := ih rt (some (transportDiagnostic cause))
        refine ⟨?_, ?_, ?_⟩
        · simpa [lastResponseTime] using hrec.1
        · simpa [lastErrorMessage] using hrec.2.1
        · intro hh
          exact hrec.2.2 hh

theorem lastResponseTime_all_transport (rt : Option Nat)
    (os : List AttemptOutcome) (h : ∀ o ∈ os, isTransportErr o = true) :
    lastResponseTime rt os = rt := by
  induction os generalizing rt with
  | nil => rfl
  | cons o rest ih =>
    cases o with
    | response status reason elapsed =>
      have := h _ (List.mem_cons_self _ _)
      simp [isTransportErr] at this
    | transportError cause =>
      have hrest : ∀ o ∈ rest, isTransportErr o = true :=
        fun x hx => h x (List.mem_cons_of_mem _ hx)
      simpa [lastResponseTime] using ih rt hrest

theorem srl_sleeps (ri : Nat) (os : List AttemptOutcome)
    (rt : Option Nat) (em : Option String) :
    (send_request_loop ri os rt em).sleeps =
      List.replicate
        (((os.take (send_request_loop ri os rt em).attempts_made).dropLast).countP
          (fun o => isTransportErr o)) ri := by
  induction os generalizing rt em with
  | nil => simp [send_request_loop]
  | cons o rest ih =>
    cases o with
    | response status reason elapsed =>
      by_cases hs : statusIsSuccess status
      · rw [srl_cons_response]
        simp [hs]
      · rw [srl_cons_response]
        simp only [hs, Bool.false_eq_true, if_false]
        cases hrest : rest with
        | nil =>
          subst hrest
          simp [send_request_loop]
        | cons o2 rest2 =>
          rw [← hrest]
          have hpos := srl_attempts_pos ri rest (some elapsed)
            (some (httpDiagnostic status reason)) (by rw [hrest]; simp)
          have htne : rest.take (send_request_loop ri rest (some elapsed)
              (some (httpDiagnostic status reason))).attempts_made ≠ [] := by
            rw [Ne, List.take_eq_nil_iff]
            push_neg
            constructor
            · omega
            · rw [hrest]
              simp
          rw [List.take_cons (by omega), Nat.add_sub_cancel,
            List.dropLast_cons_of_ne_nil htne, List.countP_cons]
          simp only [isTransportErr, Bool.false_eq_true, if_false, Nat.add_zero]
          exact ih (some elapsed) (some (httpDiagnostic status reason))
    | transportError cause =>
      cases hrest : rest with
      | nil =>
        rw [srl_cons_transport]
        simp [lastResponseTime]
      | cons o2 rest2 =>
        rw [← hrest, srl_cons_transport]
        have hne : rest.isEmpty = false := by
          rw [hrest]
          rfl
        simp only [hne, Bool.false_eq_true, if_false]
        have hpos := srl_attempts_pos ri rest rt
          (some (transportDiagnostic cause)) (by rw [hrest]; simp)
        have htne : rest.take (send_request_loop ri rest rt
            (some (transportDiagnostic cause))).attempts_made ≠ [] := by
          rw [Ne, List.take_eq_nil_iff]
          push_neg
          constructor
          · omega
          · rw [hrest]
            simp
        rw [List.take_cons (by omega), Nat.add_sub_cancel,
          List.dropLast_cons_of_ne_nil htne, List.countP_cons,
          ih rt (some (transportDiagnostic cause))]
        have hc : isTransportErr (AttemptOutcome.transportError cause) = true :=
          rfl
        simp [hc, List.replicate_succ]

/- ### C5 -/

/-- C5 counterexample: with max_retries = 0 and the single attempt
receiving an HTTP 500 response, the cycle ends Unhealthy with the HTTP
diagnostic, yet response_time is some 37 rather than none — the
deciding attempt was a failed HTTP response and a latency was still
recorded, contradicting the claim that a failed HTTP response records
no latency. -/
theorem failed_response_records_latency_cex :
    (send_request_cycle envAlways500 0 5).current_health =
      HealthStatus.Unhealthy
    ∧ (send_request_cycle envAlways500 0 5).error_message =
      some "HTTP 500: Internal Server Error"
    ∧ ¬ (send_request_cycle envAlways500 0 5).response_time = none := by
  refine ⟨rfl, rfl, ?_⟩
  intro h
  exact Option.noConfusion h

/-- C5 (amended): the recorded latency is that of the last attempt that
received an HTTP response — success or not — with None only when no
consumed attempt received a response; the recorded diagnostic is that
of the last consumed attempt (HTTP code-reason text for an unsuccessful
response, Request-failed text for a transport error, cleared on
success); a Healthy cycle records the successful latency and no
diagnostic; a cycle whose attempts all fail at transport level records
no latency. -/
theorem send_request_latency_and_diagnostics (env : Nat → AttemptOutcome)
    (r ri : Nat) :
    (send_request_cycle env r ri).response_time =
      lastResponseTime none
        (((List.range (r + 1)).map env).take
          (send_request_cycle env r ri).attempts_made)
    ∧ (send_request_cycle env r ri).error_message =
      lastErrorMessage none
        (((List.range (r + 1)).map env).take
          (send_request_cycle env r ri).attempts_made)
    ∧ ((send_request_cycle env r ri).current_health = HealthStatus.Healthy →
        (send_request_cycle env r ri).error_message = none
        ∧ (send_request_cycle env r ri).response_time.isSome)
    ∧ ((∀ i, i ≤ r → isTransportErr (env i) = true) →
        (send_request_cycle env r ri).response_time = none) := by
  have h := srl_records ri ((List.range (r + 1)).map env) none none
  simp only [send_request_cycle]
  refine ⟨h.1, h.2.1, h.2.2, ?_⟩
  intro htrans
  rw [h.1]
  apply lastResponseTime_all_transport
  intro o ho
  have hmem : o ∈ (List.range (r + 1)).map env := List.take_subset _ _ ho
  rcases List.mem_map.mp hmem with ⟨j, hj, rfl⟩
  exact htrans j (by have := List.mem_range.mp hj; omega)

/-- C5 witness: a cycle whose two attempts both fail at transport level
records no latency. -/
theorem send_request_latency_and_diagnostics_witness :
    (send_request_cycle envAlwaysTransportErr 1 5).response_time = none := by
  have h := send_request_latency_and_diagnostics envAlwaysTransportErr 1 5
  exact h.2.2.2 (fun i _ => rfl)

/- ### C6 -/

/-- C6 counterexample: with max_retries = 1, attempt 0 failing with an
HTTP 500 response and attempt 1 succeeding, two attempts are made yet
no wait at all occurs between them — contradicting the claim that
exactly retry_delay (here 5) is waited between any failed attempt and
the next. -/
theorem no_wait_after_failed_response_cex :
    (send_request_cycle envFailThenOk 1 5).attempts_made = 2
    ∧ isFailedAttempt (envFailThenOk 0) = true
    ∧ isSuccessOutcome (envFailThenOk 1) = true
    ∧ (send_request_cycle envFailThenOk 1 5).sleeps = []
    ∧ ¬ (send_request_cycle envFailThenOk 1 5).sleeps = [5] := by
  refine ⟨rfl, rfl, rfl, rfl, ?_⟩
  intro h
  exact List.noConfusion h

/-- C6 (amended): within one cycle the sleep trace is exactly one
retry_delay entry per transport-error attempt among the consumed
attempts other than the final one — so a wait occurs only between a
transport-error attempt and the next attempt, an unsuccessful HTTP
response is retried immediately with no wait, and no wait follows the
final attempt; with max_retries = 0 exactly one attempt is made and no
wait ever occurs. -/
theorem retry_wait_only_on_transport_error (env : Nat → AttemptOutcome)
    (r ri : Nat) :
    (send_request_cycle env r ri).sleeps =
      List.replicate
        (((((List.range (r + 1)).map env).take
            (send_request_cycle env r ri).attempts_made).dropLast).countP
          (fun o => isTransportErr o)) ri
    ∧ (r = 0 → (send_request_cycle env r ri).attempts_made = 1
        ∧ (send_request_cycle env r ri).sleeps = []) := by
  constructor
  · simp only [send_request_cycle]
    exact srl_sleeps ri ((List.range (r + 1)).map env) none none
  · intro hr
    subst hr
    have h1 : (List.range (0 + 1)).map env = [env 0] := by
      have : List.range 1 = [0] := rfl
      rw [Nat.zero_add, this]
      rfl
    simp only [send_request_cycle, h1]
    cases env 0 with
    | response status reason elapsed =>
      rw [srl_cons_response]
      by_cases hs : statusIsSuccess status <;> simp [hs, send_request_loop]
    | transportError cause =>
      rw [srl_cons_transport]
      simp [send_request_loop]

/-- C6 witness: with max_retries = 0 a single attempt is made and the
sleep trace is empty. -/
theorem retry_wait_only_on_transport_error_witness :
    (send_request_cycle envAlways500 0 7).attempts_made = 1
    ∧ (send_request_cycle envAlways500 0 7).sleeps = [] := by
  have h := retry_wait_only_on_transport_error envAlways500 0 7
  exact h.2 rfl

/- ### C2 witness -/

/-- C2 witness: with max retry count 2, attempt 0 failing with HTTP 500
and attempt 1 the first success, the cycle stops after exactly 2
attempts with verdict Healthy. -/
theorem health_check_retry_protocol_witness :
    (perform_health_check envFailThenOk 2 5).attempts_made = 2
    ∧ (perform_health_check envFailThenOk 2 5).current_health =
      HealthStatus.Healthy := by
  have h := health_check_retry_protocol envFailThenOk 2 5
  exact h.2.1 1 (by decide) (by decide) (by decide)

/- ### C3 witness -/

/-- C3 witness: with a failing provider followed by a succeeding one,
send_notification returns overall success. -/
theorem send_notification_fanout_witness :
    (send_notification
      [⟨"Console", fun _ => some "io error"⟩, ⟨"Pushover", fun _ => none⟩]
      "x is unhealthy!").1 = Except.ok () := by
  have h := send_notification_fanout
    [⟨"Console", fun _ => some "io error"⟩, ⟨"Pushover", fun _ => none⟩]
    "x is unhealthy!" (List.cons_ne_nil _ _)
  exact h.2.1.mpr
    ⟨⟨"Pushover", fun _ => none⟩,
      List.mem_cons_of_mem _ (List.mem_cons_self _ _), rfl⟩

/- ### C4 -/

theorem monitored_service_set_same (s : MonitoredService) :
    { s with health_status := s.health_status } = s := rfl

/-- C4: every monitor cycle pushes one new snapshot into the shared
state store, whether or not the verdict changed: the store-write trace
of any run has exactly one entry per cycle, and in particular a run of
cycles whose verdicts all equal the remembered status still writes once
per cycle while dispatching no notification. -/
theorem snapshot_recorded_every_cycle (state : MonitoringState)
    (service : MonitoredService)
    (cycles : List ((Nat → AttemptOutcome) × Nat)) :
    (run_monitor_cycles state service cycles).2.2.1.length = cycles.length
    ∧ ((∀ c ∈ cycles,
          (send_request_cycle c.1 service.max_retries
            service.retry_interval).current_health = service.health_status) →
        (run_monitor_cycles state service cycles).2.2.1.length = cycles.length
        ∧ (run_monitor_cycles state service cycles).2.2.2 = []) := by
  have hlen : ∀ (cs : List ((Nat → AttemptOutcome) × Nat))
      (st : MonitoringState) (sv : MonitoredService),
      (run_monitor_cycles st sv cs).2.2.1.length = cs.length := by
    intro cs
    induction cs with
    | nil => intro st sv; rfl
    | cons c rest ih =>
      intro st sv
      obtain ⟨env, now⟩ := c
      simp only [run_monitor_cycles, List.length_cons]
      rw [ih]
  refine ⟨hlen cycles state service, ?_⟩
  intro hsame
  refine ⟨hlen cycles state service, ?_⟩
  clear hlen
  induction cycles generalizing state with
  | nil => rfl
  | cons c rest ih =>
    obtain ⟨env, now⟩ := c
    have hv : (send_request_cycle env service.max_retries
        service.retry_interval).current_health = service.health_status :=
      hsame (env, now) (List.mem_cons_self _ _)
    simp only [run_monitor_cycles, monitor_cycle, hv, ne_eq, not_true_eq_false,
      if_false, Option.toList_none, List.nil_append, monitored_service_set_same]
    exact ih _ (fun c hc => hsame c (List.mem_cons_of_mem _ hc))

/-- C4 witness: two cycles with an unchanged Healthy verdict produce
two store writes and zero notifications. -/
theorem snapshot_recorded_every_cycle_witness :
    (run_monitor_cycles MonitoringState.new
      ⟨"https://example.com", 300, HealthStatus.Healthy, 0, 5⟩
      [(fun _ => AttemptOutcome.response 200 (some "OK") 10, 1000),
        (fun _ => AttemptOutcome.response 200 (some "OK") 12, 1300)]
      ).2.2.1.length = 2
    ∧ (run_monitor_cycles MonitoringState.new
      ⟨"https://example.com", 300, HealthStatus.Healthy, 0, 5⟩
      [(fun _ => AttemptOutcome.response 200 (some "OK") 10, 1000),
        (fun _ => AttemptOutcome.response 200 (some "OK") 12, 1300)]
      ).2.2.2 = [] := by
  have h := snapshot_recorded_every_cycle MonitoringState.new
    ⟨"https://example.com", 300, HealthStatus.Healthy, 0, 5⟩
    [(fun _ => AttemptOutcome.response 200 (some "OK") 10, 1000),
      (fun _ => AttemptOutcome.response 200 (some "OK") 12, 1300)]
  have hsame := h.2 (by decide)
  exact ⟨hsame.1, hsame.2⟩

/- ### C7 -/

theorem applyUpdates_avoid (K : String) (us : List UpdateArgs) :
    ∀ s : MonitoringState, s.get_service K = none →
      (∀ u ∈ us, u.url ≠ K) →
      (applyUpdates s us).get_service K = none := by
  induction us with
  | nil =>
    intro s hs _
    exact hs
  | cons u rest ih =>
    intro s hs hav
    simp only [applyUpdates]
    apply ih
    · simp only [MonitoringState.get_service,
        MonitoringState.update_service_stats]
      rw [if_neg]
      · exact hs
      · intro heq
        exact hav u (List.mem_cons_self _ _) heq.symm
    · exact fun x hx => hav x (List.mem_cons_of_mem _ hx)

/-- C7: a point lookup immediately after an upsert returns exactly the
just-written snapshot, with next_check_timestamp equal to
last_check_timestamp plus the given next-check interval; a key that was
never written (a sequence of writes all under other keys, starting from
the empty store) reads as None; and a second upsert for the same key
wholly replaces the first, the lookup returning only the second write's
fields. -/
theorem store_read_after_write (m : MonitoringState) (url K : String)
    (st st2 : HealthStatus) (rt rt2 : Option Nat) (err err2 : Option String)
    (rc rc2 nci nci2 now now2 : Nat) (us : List UpdateArgs) :
    (m.update_service_stats url st rt err rc nci now).get_service url =
      some ⟨st, rt, now, now + nci, err, rc⟩
    ∧ ((∀ u ∈ us, u.url ≠ K) →
        (applyUpdates MonitoringState.new us).get_service K = none)
    ∧ ((m.update_service_stats url st rt err rc nci now).update_service_stats
          url st2 rt2 err2 rc2 nci2 now2).get_service url =
        some ⟨st2, rt2, now2, now2 + nci2, err2, rc2⟩ := by
  refine ⟨?_, ?_, ?_⟩
  · simp [MonitoringState.update_service_stats, MonitoringState.get_service]
  · intro havoid
    exact applyUpdates_avoid K us MonitoringState.new rfl havoid
  · simp [MonitoringState.update_service_stats, MonitoringState.get_service]

/-- C7 witness: reading key https://example.com right after writing it
returns the written snapshot with next_check = 1000 + 300, and the key
reads as None after a write sequence that only touched another key. -/
theorem store_read_after_write_witness :
    (MonitoringState.new.update_service_stats "https://example.com"
        HealthStatus.Healthy (some 250) none 0 300 1000).get_service
      "https://example.com" =
      some ⟨HealthStatus.Healthy, some 250, 1000, 1300, none, 0⟩
    ∧ (applyUpdates MonitoringState.new
        [⟨"https://service1.com", HealthStatus.Healthy, some 100, none, 0,
          300, 5⟩]).get_service "https://example.com" = none := by
  have h := store_read_after_write MonitoringState.new "https://example.com"
    "https://example.com" HealthStatus.Healthy HealthStatus.Healthy (some 250)
    (some 250) none none 0 0 300 300 1000 1000
    [⟨"https://service1.com", HealthStatus.Healthy, some 100, none, 0,
      300, 5⟩]
  refine ⟨?_, h.2.1 (by decide)⟩
  have h1 := h.1
  norm_num at h1
  exact h1

/- ### C8 -/

/-- C8: the supervisor awaits only the most recently spawned task — the
outcome of wait_for_any_task_completion over spawned tasks is the
outcome for the last handle alone; in particular, with the
first-spawned task already terminated in error and the last-spawned
task never terminating, the supervisor never returns (the engine does
not end), while a single failed task does propagate its error.  This
evidences that a non-last monitor's termination is not propagated,
contrary to the first-to-stop-stops-the-engine contract. -/
theorem supervisor_awaits_only_last_task
    (hs : List (Option (Except ServiceError Unit)))
    (h : Option (Except ServiceError Unit)) :
    wait_for_any_task_completion (hs ++ [h]) =
      wait_for_any_task_completion [h]
    ∧ wait_for_any_task_completion
        [some (Except.error (ServiceError.HttpRequest "connection refused")),
          none] = none
    ∧ wait_for_any_task_completion
        [some (Except.error (ServiceError.HttpRequest "connection refused"))] =
      some (Except.error (FluxaError.Service
        (ServiceError.HttpRequest "connection refused"))) := by
  refine ⟨?_, rfl, rfl⟩
  unfold wait_for_any_task_completion
  rw [List.getLast?_concat]
  rfl

/- ### C9 -/

/-- C9 counterexample: a configuration holding an invalid target (empty
URL, a construction-time error) together with a valid one does not
abort startup: the invalid target is skipped and monitoring starts for
the valid target alone — a partial start, with no configuration error
surfaced. -/
theorem invalid_target_partial_start_cex :
    MonitoredService.try_from badConfig =
      Except.error (MonitoredServiceError.InvalidUrl "")
    ∧ start_all_monitoring (create_services_from_config
        [badConfig, goodConfig]) =
      Except.ok ["http://localhost:3000"] := by
  exact ⟨rfl, rfl⟩

/-- C9 (amended): an invalid target definition is logged and skipped
rather than fatal: startup proceeds with every valid target (possibly a
partial start), and a configuration error is surfaced before any
monitor starts only when no valid target remains — including the empty
target list. -/
theorem config_error_only_when_no_valid_target
    (configs : List ServiceConfig) :
    ((∀ c ∈ configs, is_valid_url c.url = false) →
      start_all_monitoring (create_services_from_config configs) =
        Except.error (FluxaError.Configuration
          (ServiceConfigurationError.ErrorInConfiguration
            "No services configured for monitoring")))
    ∧ (∀ c ∈ configs, is_valid_url c.url = true →
        ∃ urls, start_all_monitoring (create_services_from_config configs) =
          Except.ok urls ∧ c.url ∈ urls) := by
  constructor
  · intro hall
    have hnil : create_services_from_config configs = [] := by
      unfold create_services_from_config
      rw [List.filterMap_eq_nil_iff]
      intro c hc
      unfold MonitoredService.try_from
      rw [hall c hc]
      rfl
    rw [hnil]
    rfl
  · intro c hc hvalid
    have hmem : (⟨c.url, c.interval_seconds, HealthStatus.Healthy,
        c.max_retries, c.retry_interval⟩ : MonitoredService) ∈
        create_services_from_config configs := by
      unfold create_services_from_config
      apply List.mem_filterMap.mpr
      refine ⟨c, hc, ?_⟩
      unfold MonitoredService.try_from
      rw [hvalid]
      rfl
    have hne : create_services_from_config configs ≠ [] :=
      List.ne_nil_of_mem hmem
    have hempty : (create_services_from_config configs).isEmpty = false := by
      cases hcs : create_services_from_config configs with
      | nil => exact absurd hcs hne
      | cons a l => rfl
    refine ⟨(create_services_from_config configs).map MonitoredService.url,
      ?_, ?_⟩
    · unfold start_all_monitoring
      rw [hempty]
      rfl
    · exact List.mem_map.mpr ⟨_, hmem, rfl⟩

/-- C9 witness: a configuration whose only target is invalid fails fast
with the configuration error, and a mixed configuration starts the
valid target. -/
theorem config_error_only_when_no_valid_target_witness :
    start_all_monitoring (create_services_from_config [badConfig]) =
      Except.error (FluxaError.Configuration
        (ServiceConfigurationError.ErrorInConfiguration
          "No services configured for monitoring"))
    ∧ ∃ urls, start_all_monitoring (create_services_from_config
        [badConfig, goodConfig]) = Except.ok urls
        ∧ goodConfig.url ∈ urls := by
  constructor
  · exact (config_error_only_when_no_valid_target [badConfig]).1 (by decide)
  · exact (config_error_only_when_no_valid_target [badConfig, goodConfig]).2
      goodConfig (List.mem_cons_of_mem _ (List.mem_cons_self _ _)) (by decide)

end Fluxa
